import Mathlib

/-!
# ZUMBLE — shallow embedding of `src/client.rs` and `src/main.rs`

This file embeds the data model and the operations of the ZUMBLE mumble
server's `Client` (src/src/client.rs) and its process entry point
(src/src/main.rs) as executable Lean definitions, and proves properties of
them.  Machine integers (`u32`, `usize`) are modelled as `Nat`; none of the
verified operations can overflow them on the inputs considered, and where a
bound matters it is stated explicitly.  Asynchronous I/O is modelled by
explicit outcome parameters (what the transport did) and by traces of emitted
events; fallible operations return `Except`.
-/

namespace Zumble

/-- A peer socket address (`std::net::SocketAddr`); its structure is never
inspected by the verified code, only stored and compared. -/
structure SocketAddr where
  host : String
  port : Nat
  deriving DecidableEq, Repr

/-- An `std::io::Error`; the verified code only propagates it, so it is
carried opaquely as a numeric error code. -/
structure IoError where
  code : Nat
  deriving DecidableEq, Repr

/-- The error kinds of `MumbleError` (src error module) that the code under
`src/` constructs or matches on. -/
inductive MumbleError where
  | io (e : IoError)
  | timeout
  | unexpectedMessage
  | streamClosed
  deriving DecidableEq, Repr

/-! ## Protocol-buffer messages

Each message is a record of optional fields (protobuf `optional` semantics:
`has_x()` is `Option.isSome`, `get_x()` with an absent field yields the
protobuf default, `set_x` stores `some`).  Only the fields touched by
`src/client.rs` are modelled. -/

/-- `proto::mumble::Version`. -/
structure VersionMsg where
  version : Option Nat := none
  release : Option String := none
  os : Option String := none
  os_version : Option String := none
  deriving DecidableEq, Repr

/-- `proto::mumble::Authenticate`. -/
structure Authenticate where
  username : Option String := none
  tokens : List String := []
  opus : Option Bool := none
  celt_versions : List Int := []
  deriving DecidableEq, Repr

/-- `proto::mumble::UserState` (fields used by `Client`). -/
structure UserState where
  session : Option Nat := none
  user_id : Option Nat := none
  channel_id : Option Nat := none
  name : Option String := none
  mute : Option Bool := none
  deaf : Option Bool := none
  deriving DecidableEq, Repr

/-- `proto::mumble::ServerSync` (fields used by `Client`). -/
structure ServerSync where
  session : Option Nat := none
  max_bandwidth : Option Nat := none
  welcome_text : Option String := none
  deriving DecidableEq, Repr

/-- `proto::mumble::ServerConfig` (fields used by `Client`). -/
structure ServerConfig where
  max_bandwidth : Option Nat := none
  max_users : Option Nat := none
  allow_html : Option Bool := none
  message_length : Option Nat := none
  image_message_length : Option Nat := none
  deriving DecidableEq, Repr

/-- `proto::mumble::UDPTunnel`: a voice frame tunnelled over the control
channel; `packet` holds the plaintext-encoded frame bytes. -/
structure UDPTunnel where
  packet : Option (List Nat) := none
  deriving DecidableEq, Repr

/-- `proto::mumble::CryptSetup` (fields produced by `get_crypt_setup`). -/
structure CryptSetup where
  key : Option (List Nat) := none
  client_nonce : Option (List Nat) := none
  server_nonce : Option (List Nat) := none
  deriving DecidableEq, Repr

/-- Modelled from the spec: `ChannelState` as produced by
`Channel::get_channel_state` (src/channel.rs is not among the sources here;
§3 of the spec gives a channel's metadata).  Only its identity as a
`ChannelState`-kinded message matters for the claims below. -/
structure ChannelState where
  channel_id : Option Nat := none
  name : Option String := none
  parent : Option Nat := none
  deriving DecidableEq, Repr

/-- A framed control message as passed to `Client::send_message`; the
constructor plays the role of the `MessageKind` tag. -/
inductive Msg where
  | version (m : VersionMsg)
  | authenticate (m : Authenticate)
  | cryptSetup (m : CryptSetup)
  | channelState (m : ChannelState)
  | userState (m : UserState)
  | serverSync (m : ServerSync)
  | serverConfig (m : ServerConfig)
  | udpTunnel (m : UDPTunnel)
  deriving DecidableEq, Repr

/-- `Msg.channelState` discriminator, for counting messages in a trace. -/
def Msg.isChannelState : Msg → Bool
  | .channelState _ => true
  | _ => false

/-- `Msg.userState` discriminator, for counting messages in a trace. -/
def Msg.isUserState : Msg → Bool
  | .userState _ => true
  | _ => false

/-! ## CryptState and VoiceTarget (external modules, modelled from the spec) -/

/-- Modelled from the spec: `CryptState` (src/crypt.rs is not among the
sources here).  Per §4.1 it holds a 16-byte key, an encrypt nonce and a
decrypt nonce (plus a replay window and counters that the claims below never
touch, so they are omitted). -/
structure CryptState where
  key : List Nat := []
  encrypt_nonce : List Nat := []
  decrypt_nonce : List Nat := []
  deriving DecidableEq, Repr

/-- Modelled from the spec: `CryptState::get_crypt_setup` "produces a message
with the current key and both nonces for transmission to the peer" (§4.1). -/
def CryptState.get_crypt_setup (c : CryptState) : CryptSetup :=
  { key := some c.key
    server_nonce := some c.encrypt_nonce
    client_nonce := some c.decrypt_nonce }

/-- Modelled from the spec: a `VoiceTarget` whisper slot (src/target.rs is
not among the sources here).  §3: "Variants: empty, per-user (explicit list
of session ids), per-channel (a channel id with three modifiers)". -/
inductive VoiceTarget where
  | empty
  | users (sessions : List Nat)
  | channel (channel_id : Nat) (links : Bool) (children : Bool)
      (group : Option String)
  deriving DecidableEq, Repr

/-- The `Default::default()` of a `VoiceTarget` slot is the empty slot. -/
instance : Inhabited VoiceTarget := ⟨VoiceTarget.empty⟩

/-! ## The Client record

The Rust struct's I/O handles (the TLS write half, the shared UDP socket,
the publisher queue) and the `last_ping` instant are capabilities, not data;
writes through them are modelled by outcome parameters and event traces.
`AtomicU32` becomes a plain `Nat` with explicit state passing. -/

/-- `client::Client` — the per-session record (data fields). -/
structure Client where
  version : VersionMsg
  authenticate : Authenticate
  session_id : Nat
  channel_id : Nat
  mute : Bool
  deaf : Bool
  tokens : List String
  crypt_state : CryptState
  udp_socket_addr : Option SocketAddr
  use_opus : Bool
  codecs : List Int
  targets : List VoiceTarget
  deriving DecidableEq, Repr

/-! ## Claim C7 / C8 / C10 operations -/

/-- `Client::join_channel`: compare against the current atomic channel id;
if equal return `None` and leave the client unchanged, otherwise store the
new id and return `Some` of the previous one. -/
def Client.join_channel (c : Client) (channel_id : Nat) :
    Option Nat × Client :=
  let current_channel := c.channel_id
  if channel_id = current_channel then
    (none, c)
  else
    (some current_channel, { c with channel_id := channel_id })

/-- `Client::update`: apply the `mute` field of a `UserState` when present,
then the `deaf` field when present. -/
def Client.update (c : Client) (state : UserState) : Client :=
  let c₁ := match state.mute with
    | some m => { c with mute := m }
    | none => c
  match state.deaf with
  | some d => { c₁ with deaf := d }
  | none => c₁

/-- `Client::get_target`: `self.targets.get(id).cloned()`. -/
def Client.get_target (c : Client) (id : Nat) : Option VoiceTarget :=
  c.targets.get? id

/-! ## Timed writes (`tokio::time::timeout` around a transport operation)

A single transport operation (one TLS `write_all`, one UDP `send_to`) is
described by what it would do if awaited alone: complete after `elapsed_ms`
milliseconds with a result, or stay pending forever. -/

/-- The behaviour of one awaited transport operation. -/
inductive WriteOutcome where
  | completes (elapsed_ms : Nat) (result : Except IoError Unit)
  | pending

/-- Whether the operation completes within a deadline of `d` milliseconds
(at the deadline instant the racing future is polled first and wins). -/
def WriteOutcome.completesWithin (w : WriteOutcome) (d : Nat) : Bool :=
  match w with
  | .completes t _ => t ≤ d
  | .pending => false

/-- `tokio::time::timeout(d, op)`: the operation's result when it completes
within the deadline, `none` when the timer elapses first. -/
def runTimeout (d : Nat) (w : WriteOutcome) : Option (Except IoError Unit) :=
  match w with
  | .completes t r => if t ≤ d then some r else none
  | .pending => none

/-- `Duration::from_secs(1)` in milliseconds: the TLS write deadline of
`Client::send` and the UDP send deadline of `Client::send_voice_packet`. -/
def oneSecondMs : Nat := 1000

/-- `Client::send`: write `data` to the TLS half under a 1-second timeout;
map a timer elapse to `MumbleError::Timeout`, a transport error to
`MumbleError::Io`, and a completed write to `Ok(())`.  The bytes written do
not influence the outcome; `w` describes the write of exactly `data`. -/
def Client.send (_c : Client) (_data : List Nat) (w : WriteOutcome) :
    Except MumbleError Unit :=
  match runTimeout oneSecondMs w with
  | some (.ok ()) => .ok ()
  | some (.error e) => .error (.io e)
  | none => .error .timeout

/-! ## Message sends and event traces -/

/-- An observable output of the client: a datagram on the UDP socket or a
framed message on the TLS control channel. -/
inductive Event where
  | udp (bytes : List Nat) (addr : SocketAddr)
  | tls (m : Msg)
  deriving DecidableEq, Repr

/-- The network side of one framed TLS send: whether writing this message's
bytes succeeds.  Abstracts `message_to_bytes` + `Client::send`. -/
def Net : Type := Msg → Except MumbleError Unit

/-- `Client::send_message`: serialize and write one framed message.  The
trace records the attempted message even when the write fails. -/
def Client.send_message (net : Net) (_c : Client) (m : Msg) :
    Except MumbleError Unit × List Event :=
  (net m, [Event.tls m])

/-- `Client::send_server_sync`: build a `ServerSync` with max-bandwidth
72000, the client's session id and the welcome text, and send it. -/
def Client.send_server_sync (net : Net) (c : Client) :
    Except MumbleError Unit × List Event :=
  let server_sync : ServerSync :=
    { max_bandwidth := some 72000
      session := some c.session_id
      welcome_text := some "ZUMBLE Server" }
  c.send_message net (Msg.serverSync server_sync)

/-- `Client::send_server_config`: build a `ServerConfig` with max-bandwidth
72000, max-users 2048, allow-html, message-length 512, image-length 0, and
send it. -/
def Client.send_server_config (net : Net) (c : Client) :
    Except MumbleError Unit × List Event :=
  let server_config : ServerConfig :=
    { max_bandwidth := some 72000
      max_users := some 2048
      allow_html := some true
      message_length := some 512
      image_message_length := some 0 }
  c.send_message net (Msg.serverConfig server_config)

/-- `Client::get_user_state`: a `UserState` carrying the client's session id
(twice: `user_id` and `session`), channel id and username. -/
def Client.get_user_state (c : Client) : UserState :=
  { user_id := some c.session_id
    channel_id := some c.channel_id
    session := some c.session_id
    name := some (c.authenticate.username.getD "") }

/-! ## Channel / ServerState (what `sync_client_and_channels` reads) -/

/-- Modelled from the spec: a channel node (src/channel.rs is not among the
sources here); only `get_channel_state` is consumed by the code under
verification, so the node is carried as the message it produces. -/
structure Channel where
  state : ChannelState
  deriving DecidableEq, Repr

/-- Modelled from the spec: `Channel::get_channel_state` returns the
channel's `ChannelState` message. -/
def Channel.get_channel_state (ch : Channel) : ChannelState :=
  ch.state

/-- `ServerState` as read by `sync_client_and_channels`: the values of the
channels map and of the clients map, in iteration order. -/
structure ServerState where
  channels : List Channel
  clients : List Client

/-- Send a list of framed messages in order, stopping at the first failed
write (the `?` operator in the Rust loops); the trace records every
attempted message. -/
def sendAll (net : Net) : List Msg → Except MumbleError Unit × List Event
  | [] => (.ok (), [])
  | m :: rest =>
    match net m with
    | .ok () =>
      let (r, tr) := sendAll net rest
      (r, Event.tls m :: tr)
    | .error e => (.error e, [Event.tls m])

/-- `Client::sync_client_and_channels`: send one `ChannelState` per channel
of the server state, then one `UserState` per client. -/
def Client.sync_client_and_channels (net : Net) (_c : Client)
    (state : ServerState) : Except MumbleError Unit × List Event :=
  let (r₁, t₁) := sendAll net
    (state.channels.map fun ch => Msg.channelState ch.get_channel_state)
  match r₁ with
  | .error e => (.error e, t₁)
  | .ok () =>
    let (r₂, t₂) := sendAll net
      (state.clients.map fun cl => Msg.userState cl.get_user_state)
    (r₂, t₁ ++ t₂)

/-! ## The voice delivery path -/

/-- A decoded clientbound voice packet (`VoicePacket<Clientbound>`); its
internal frame structure lives in src/voice.rs, which is not among the
sources here — the delivery-path claims treat it as an opaque payload. -/
structure VoicePacket where
  raw : List Nat
  deriving DecidableEq, Repr

/-- `Client::send_voice_packet`.  `encrypt` stands for
`CryptState::encrypt` and `encode` for `voice::encode_voice_packet` (both
outside the given sources); `udpW` describes the UDP `send_to` of the
ciphertext and `net` the TLS path.  If the client has a recorded UDP peer
address, encrypt with its crypt state and send the datagram there under a
1-second timeout; otherwise encode the plaintext, wrap it in a `UDPTunnel`
message and send that over TLS. -/
def Client.send_voice_packet
    (encrypt : CryptState → VoicePacket → List Nat)
    (encode : VoicePacket → List Nat)
    (net : Net) (udpW : WriteOutcome)
    (c : Client) (packet : VoicePacket) :
    Except MumbleError Unit × List Event :=
  match c.udp_socket_addr with
  | some addr =>
    let buf := encrypt c.crypt_state packet
    let sent : Except MumbleError Unit :=
      match runTimeout oneSecondMs udpW with
      | some (.ok ()) => .ok ()
      | some (.error e) => .error (.io e)
      | none => .error .timeout
    (sent, [Event.udp buf addr])
  | none =>
    let bytes := encode packet
    let tunnel_message : UDPTunnel := { packet := some bytes }
    c.send_message net (Msg.udpTunnel tunnel_message)

/-! ## Client construction (`Client::new`) -/

/-- One decimal digit of an ASCII character. -/
def charDigit (c : Char) : Option Nat :=
  if c.isDigit then some (c.toNat - 48) else none

/-- Accumulate decimal digits left to right; fail on a non-digit. -/
def parseDigitsAux : List Char → Nat → Option Nat
  | [], acc => some acc
  | c :: cs, acc =>
    match charDigit c with
    | some d => parseDigitsAux cs (acc * 10 + d)
    | none => none

/-- `konst::primitive::parse_usize` (core `usize::from_str` semantics on a
64-bit target): an optional leading `+`, then one or more decimal digits,
rejecting the empty string, any other character, and overflow past
`2 ^ 64 - 1`. -/
def parseUsize (s : String) : Option Nat :=
  let cs := s.data
  let cs := match cs with
    | '+' :: rest => rest
    | other => other
  match cs with
  | [] => none
  | _ =>
    match parseDigitsAux cs 0 with
    | some n => if n < 2 ^ 64 then some n else none
    | none => none

/-- `Client::new`.  `client_capacity_env` is the value of the
`CLIENT_CAPACITY` environment variable (`std::env::var` result); an unset
variable falls back to `"2048"`, and `unwrap_ctx!` turns a parse failure
into a panic, modelled as `none`.  The target vector is resized to the
parsed capacity, filling with `Default::default()`. -/
def Client.new (version : VersionMsg) (authenticate : Authenticate)
    (session_id channel_id : Nat) (crypt_state : CryptState)
    (client_capacity_env : Option String) : Option Client :=
  let tokens := authenticate.tokens
  match parseUsize (client_capacity_env.getD "2048") with
  | none => none
  | some capacity =>
    some
      { version := version
        session_id := session_id
        channel_id := channel_id
        crypt_state := crypt_state
        tokens := tokens
        deaf := false
        mute := false
        udp_socket_addr := none
        use_opus := match authenticate.opus with
          | some b => b
          | none => false
        codecs := authenticate.celt_versions
        authenticate := authenticate
        targets := List.replicate capacity default }

/-! ## The handshake (`Client::init`) -/

/-- Project a framed message to a `Version` payload. -/
def Msg.asVersion : Msg → Option VersionMsg
  | .version m => some m
  | _ => none

/-- Project a framed message to an `Authenticate` payload. -/
def Msg.asAuthenticate : Msg → Option Authenticate
  | .authenticate m => some m
  | _ => none

/-- The handshake receive deadline, in milliseconds (spec §4.4: "Receive
`Version` within a bounded deadline (default 5 s)"). -/
def fiveSecondsMs : Nat := 5000

/-- Modelled from the spec: `proto::expected_message` (src/proto.rs is not
among the sources here).  It awaits the next framed message on the TLS
stream — modelled as a list of (arrival-delay-in-ms, message) pairs —
failing with `Timeout` past the 5-second deadline, with a closed-stream
error when the peer hangs up, and with `UnexpectedMessage` when the frame is
not of the expected kind. -/
def expected_message {α : Type} (extract : Msg → Option α)
    (stream : List (Nat × Msg)) :
    Except MumbleError (α × List (Nat × Msg)) :=
  match stream with
  | [] => .error .streamClosed
  | (delay, m) :: rest =>
    if fiveSecondsMs < delay then .error .timeout
    else
      match extract m with
      | some v => .ok (v, rest)
      | none => .error .unexpectedMessage

/-- `Client::init`: receive `Version`, send the server's `Version`, receive
`Authenticate`, construct a fresh `CryptState` and send its `CryptSetup`;
return the received version, the received authenticate and the crypt state.
`fresh_crypt` is the `CryptState::default()` RNG draw, passed as a parameter
because src/crypt.rs is not among the sources here (spec §4.1: key and
nonces come from a cryptographic RNG).  The second component is the trace of
messages sent. -/
def Client.init (net : Net) (fresh_crypt : CryptState)
    (stream : List (Nat × Msg)) (server_version : VersionMsg) :
    Except MumbleError (VersionMsg × Authenticate × CryptState) ×
      List Event :=
  match expected_message Msg.asVersion stream with
  | .error e => (.error e, [])
  | .ok (version, stream₁) =>
    match net (Msg.version server_version) with
    | .error e => (.error e, [Event.tls (Msg.version server_version)])
    | .ok () =>
      match expected_message Msg.asAuthenticate stream₁ with
      | .error e => (.error e, [Event.tls (Msg.version server_version)])
      | .ok (authenticate, _stream₂) =>
        let crypt := fresh_crypt
        let crypt_setup := crypt.get_crypt_setup
        match net (Msg.cryptSetup crypt_setup) with
        | .error e =>
          (.error e,
            [Event.tls (Msg.version server_version),
             Event.tls (Msg.cryptSetup crypt_setup)])
        | .ok () =>
          (.ok (version, authenticate, crypt),
            [Event.tls (Msg.version server_version),
             Event.tls (Msg.cryptSetup crypt_setup)])

/-! ## Process startup (`main` in src/main.rs) -/

/-- The outcomes of the fallible steps of `main`, in program order:
certificate load, key load, TLS config construction, the UDP and TCP binds,
and the final `try_join_all` over the servers. -/
structure StartupOutcomes where
  certLoad : Except IoError (List (List Nat))
  keyLoad : Except IoError (List (List Nat))
  tlsConfig : Except IoError Unit
  udpBind : Except IoError Unit
  tcpBind : Except IoError Unit
  serve : Except IoError Unit

/-- The exit status of a Rust process whose main thread panics. -/
def panicExitCode : Nat := 101

/-- `main`, as (exit code, whether the serving phase was reached).  A failed
certificate load, key load or TLS-config construction logs and `return`s —
a normal return from `main`, hence exit code 0.  `keys.remove(0)` on an
empty key list and the `.unwrap()` on either bind panic, hence exit code
101.  After serving, both arms of the final `match` fall off the end of
`main`, hence exit code 0. -/
def mainResult (o : StartupOutcomes) : Nat × Bool :=
  match o.certLoad with
  | .error _ => (0, false)
  | .ok _ =>
    match o.keyLoad with
    | .error _ => (0, false)
    | .ok keys =>
      if keys.isEmpty then (panicExitCode, false)
      else
        match o.tlsConfig with
        | .error _ => (0, false)
        | .ok () =>
          match o.udpBind with
          | .error _ => (panicExitCode, false)
          | .ok () =>
            match o.tcpBind with
            | .error _ => (panicExitCode, false)
            | .ok () =>
              match o.serve with
              | .ok () => (0, true)
              | .error _ => (0, true)

/-! ## Concrete sample values (used by witnesses) -/

/-- A network oracle on which every framed TLS write succeeds. -/
def netOk : Net := fun _ => Except.ok ()

/-- A 16-byte all-zero crypt state. -/
def sampleCrypt : CryptState :=
  { key := List.replicate 16 0
    encrypt_nonce := List.replicate 16 1
    decrypt_nonce := List.replicate 16 2 }

/-- A concrete authenticate message. -/
def sampleAuth : Authenticate :=
  { username := some "alice", tokens := ["token"], opus := some true
    celt_versions := [0] }

/-- A concrete client with no recorded UDP peer address. -/
def sampleClient : Client :=
  { version := { version := some 66052 }
    authenticate := sampleAuth
    session_id := 1
    channel_id := 0
    mute := false
    deaf := false
    tokens := ["token"]
    crypt_state := sampleCrypt
    udp_socket_addr := none
    use_opus := true
    codecs := [0]
    targets := List.replicate 4 default }

/-- A concrete UDP peer address. -/
def sampleAddr : SocketAddr := { host := "127.0.0.1", port := 40000 }

/-- `sampleClient` after its UDP peer address was recorded. -/
def sampleUdpClient : Client :=
  { sampleClient with udp_socket_addr := some sampleAddr }

/-- A concrete voice packet payload. -/
def samplePacket : VoicePacket := { raw := [128, 0, 100, 7] }

/-- A sample stand-in for `CryptState::encrypt`: tag the payload with the
first key byte. -/
def sampleEncrypt : CryptState → VoicePacket → List Nat :=
  fun cs p => cs.key.take 1 ++ p.raw

/-- A sample stand-in for `voice::encode_voice_packet`. -/
def sampleEncode : VoicePacket → List Nat := fun p => p.raw

/-! ## C7 — `join_channel` -/

/-- C7: `Client::join_channel` returns `None` and leaves the client
unchanged when the requested channel equals the current atomic channel id,
and otherwise stores the new id and returns `Some` of the previous one. -/
theorem join_channel_spec (c : Client) (n : Nat) :
    (n = c.channel_id → c.join_channel n = (none, c))
    ∧ (n ≠ c.channel_id →
        c.join_channel n = (some c.channel_id, { c with channel_id := n })) := by
  constructor <;> intro h <;> simp [Client.join_channel, h]

/-- C7 witness: a same-channel request is a no-op returning `None`; a
request for channel 5 from channel 0 stores 5 and returns `Some 0`. -/
theorem join_channel_spec_witness :
    sampleClient.join_channel 0 = (none, sampleClient)
    ∧ sampleClient.join_channel 5
        = (some 0, { sampleClient with channel_id := 5 }) :=
  ⟨(join_channel_spec sampleClient 0).1 rfl,
   (join_channel_spec sampleClient 5).2 (by decide)⟩

/-! ## C8 — `update` -/

/-- C8: `Client::update` sets `mute` from the message's `mute` field when
present and `deaf` from its `deaf` field when present; an absent field
leaves the corresponding flag unchanged, and every other field of the
client is unchanged. -/
theorem update_spec (c : Client) (s : UserState) :
    (c.update s).mute = s.mute.getD c.mute
    ∧ (c.update s).deaf = s.deaf.getD c.deaf
    ∧ (c.update s).version = c.version
    ∧ (c.update s).authenticate = c.authenticate
    ∧ (c.update s).session_id = c.session_id
    ∧ (c.update s).channel_id = c.channel_id
    ∧ (c.update s).tokens = c.tokens
    ∧ (c.update s).crypt_state = c.crypt_state
    ∧ (c.update s).udp_socket_addr = c.udp_socket_addr
    ∧ (c.update s).use_opus = c.use_opus
    ∧ (c.update s).codecs = c.codecs
    ∧ (c.update s).targets = c.targets := by
  cases hm : s.mute <;> cases hd : s.deaf <;>
    simp [Client.update, hm, hd]

/-! ## C10 — `get_target` totality -/

/-- C10: `Client::get_target` is total: it returns `some` slot exactly when
the index is strictly below the length of the target vector, and `none`
otherwise — in particular it never panics on out-of-range ids. -/
theorem get_target_total (c : Client) (id : Nat) :
    ((c.get_target id).isSome ↔ id < c.targets.length)
    ∧ (c.get_target id = none ↔ c.targets.length ≤ id) := by
  constructor
  · simp only [Client.get_target, List.get?_eq_getElem?,
      Option.isSome_iff_exists, List.getElem?_eq_some_iff]
    constructor
    · rintro ⟨a, h, -⟩
      exact h
    · intro h
      exact ⟨c.targets.get ⟨id, h⟩, h, rfl⟩
  · simp [Client.get_target, List.get?_eq_none]

/-! ## C4 — `send_server_sync` / `send_server_config` -/

/-- C4: `send_server_sync` sends exactly one `ServerSync` whose session is
the client's assigned session id, whose max-bandwidth is 72000 and which
carries the welcome text; `send_server_config` sends exactly one
`ServerConfig` with max-users 2048, allow-html, message-length 512 and
image-message-length 0. -/
theorem server_sync_config_messages (net : Net) (c : Client) :
    (c.send_server_sync net).2
      = [Event.tls (Msg.serverSync
          { session := some c.session_id
            max_bandwidth := some 72000
            welcome_text := some "ZUMBLE Server" })]
    ∧ (c.send_server_config net).2
      = [Event.tls (Msg.serverConfig
          { max_bandwidth := some 72000
            max_users := some 2048
            allow_html := some true
            message_length := some 512
            image_message_length := some 0 })] :=
  ⟨rfl, rfl⟩

/-! ## C1 — voice delivery path selection -/

/-- C1: `send_voice_packet` takes exactly one of two delivery paths.  With a
recorded UDP peer address it emits exactly one UDP datagram — the packet
encrypted with the client's crypt state, sent to that address — and nothing
on TLS; without one it emits exactly one TLS control message — a `UDPTunnel`
wrapping the plaintext encoding of the packet — and nothing on UDP. -/
theorem send_voice_packet_paths
    (encrypt : CryptState → VoicePacket → List Nat)
    (encode : VoicePacket → List Nat) (net : Net) (udpW : WriteOutcome)
    (c : Client) (p : VoicePacket) :
    (∀ addr, c.udp_socket_addr = some addr →
      (c.send_voice_packet encrypt encode net udpW p).2
        = [Event.udp (encrypt c.crypt_state p) addr])
    ∧ (c.udp_socket_addr = none →
      (c.send_voice_packet encrypt encode net udpW p).2
        = [Event.tls (Msg.udpTunnel { packet := some (encode p) })]) := by
  constructor
  · intro addr h
    simp [Client.send_voice_packet, h]
  · intro h
    simp [Client.send_voice_packet, h, Client.send_message]

/-- C1 witness: a client with a recorded UDP address sends the encrypted
datagram there; the same client without one tunnels the plaintext frame
over TLS. -/
theorem send_voice_packet_paths_witness :
    (sampleUdpClient.send_voice_packet sampleEncrypt sampleEncode netOk
        (WriteOutcome.completes 5 (.ok ())) samplePacket).2
      = [Event.udp (sampleEncrypt sampleUdpClient.crypt_state samplePacket)
          sampleAddr]
    ∧ (sampleClient.send_voice_packet sampleEncrypt sampleEncode netOk
        (WriteOutcome.completes 5 (.ok ())) samplePacket).2
      = [Event.tls (Msg.udpTunnel
          { packet := some (sampleEncode samplePacket) })] :=
  ⟨(send_voice_packet_paths sampleEncrypt sampleEncode netOk
      (WriteOutcome.completes 5 (.ok ())) sampleUdpClient samplePacket).1
      sampleAddr rfl,
   (send_voice_packet_paths sampleEncrypt sampleEncode netOk
      (WriteOutcome.completes 5 (.ok ())) sampleClient samplePacket).2 rfl⟩

/-! ## C6 — one-second write deadlines -/

/-- C6: `Client::send` fails with `Timeout` exactly when the TLS write does
not complete within one second, and the UDP send inside
`send_voice_packet` fails with `Timeout` exactly when it does not complete
within one second; in both paths a transport failure within the deadline
yields an `Io` error and a completed write yields `Ok`. -/
theorem write_deadline_spec (c : Client) (data : List Nat)
    (w udpW : WriteOutcome)
    (encrypt : CryptState → VoicePacket → List Nat)
    (encode : VoicePacket → List Nat) (net : Net) (p : VoicePacket)
    (addr : SocketAddr) (h : c.udp_socket_addr = some addr) :
    (c.send data w = .error .timeout
      ↔ w.completesWithin oneSecondMs = false)
    ∧ (∀ t e, w = .completes t (.error e) → t ≤ oneSecondMs →
        c.send data w = .error (.io e))
    ∧ (∀ t, w = .completes t (.ok ()) → t ≤ oneSecondMs →
        c.send data w = .ok ())
    ∧ ((c.send_voice_packet encrypt encode net udpW p).1 = .error .timeout
      ↔ udpW.completesWithin oneSecondMs = false)
    ∧ (∀ t e, udpW = .completes t (.error e) → t ≤ oneSecondMs →
        (c.send_voice_packet encrypt encode net udpW p).1 = .error (.io e))
    ∧ (∀ t, udpW = .completes t (.ok ()) → t ≤ oneSecondMs →
        (c.send_voice_packet encrypt encode net udpW p).1 = .ok ()) := by
  refine ⟨?_, ?_, ?_, ?_, ?_, ?_⟩
  · rcases w with ⟨t, r⟩ | _
    · rcases r with e | u
      · simp only [Client.send, runTimeout, WriteOutcome.completesWithin]
        by_cases ht : t ≤ oneSecondMs <;> simp [ht]
      · simp [Client.send, runTimeout, WriteOutcome.completesWithin]
        split <;> simp_all
    · simp [Client.send, runTimeout, WriteOutcome.completesWithin]
  · rintro t e rfl ht
    simp [Client.send, runTimeout, ht]
  · rintro t rfl ht
    simp [Client.send, runTimeout, ht]
  · rcases udpW with ⟨t, r⟩ | _
    · rcases r with e | u
      · simp only [Client.send_voice_packet, h, runTimeout,
          WriteOutcome.completesWithin]
        by_cases ht : t ≤ oneSecondMs <;> simp [ht]
      · simp [Client.send_voice_packet, h, runTimeout,
          WriteOutcome.completesWithin]
        split <;> simp_all
    · simp [Client.send_voice_packet, h, runTimeout,
        WriteOutcome.completesWithin]
  · rintro t e rfl ht
    simp [Client.send_voice_packet, h, runTimeout, ht]
  · rintro t rfl ht
    simp [Client.send_voice_packet, h, runTimeout, ht]

/-- C6 witness: a pending TLS write times out; a UDP send that completes
successfully after 5 ms yields `Ok`. -/
theorem write_deadline_spec_witness :
    sampleUdpClient.send [1, 2] WriteOutcome.pending = .error .timeout
    ∧ (sampleUdpClient.send_voice_packet sampleEncrypt sampleEncode netOk
        (WriteOutcome.completes 5 (.ok ())) samplePacket).1 = .ok () :=
  ⟨(write_deadline_spec sampleUdpClient [1, 2] WriteOutcome.pending
      (WriteOutcome.completes 5 (.ok ())) sampleEncrypt sampleEncode netOk
      samplePacket sampleAddr rfl).1.mpr rfl,
   (write_deadline_spec sampleUdpClient [1, 2] WriteOutcome.pending
      (WriteOutcome.completes 5 (.ok ())) sampleEncrypt sampleEncode netOk
      samplePacket sampleAddr rfl).2.2.2.2.2 5 rfl (by decide)⟩

/-! ## C5 — state synchronization ordering -/

/-- `Event.tls` of a `ChannelState` message. -/
def Event.isChannelStateMsg : Event → Bool
  | .tls (Msg.channelState _) => true
  | _ => false

/-- `Event.tls` of a `UserState` message. -/
def Event.isUserStateMsg : Event → Bool
  | .tls (Msg.userState _) => true
  | _ => false

/-- When every framed write succeeds, `sendAll` succeeds and its trace is
the whole message list. -/
theorem sendAll_ok (net : Net) (h : ∀ m, net m = Except.ok ()) :
    ∀ ms : List Msg, sendAll net ms = (Except.ok (), ms.map Event.tls) := by
  intro ms
  induction ms with
  | nil => rfl
  | cons m rest ih => simp [sendAll, h m, ih]

/-- C5: with a healthy transport, `sync_client_and_channels` sends exactly
one `ChannelState` per channel of the server state and exactly one
`UserState` per existing client, and every `ChannelState` message is sent
before any `UserState` message. -/
theorem sync_client_and_channels_spec (net : Net) (c : Client)
    (st : ServerState) (h : ∀ m, net m = Except.ok ()) :
    (c.sync_client_and_channels net st).2
      = (st.channels.map fun ch =>
          Event.tls (Msg.channelState ch.get_channel_state))
        ++ (st.clients.map fun cl =>
          Event.tls (Msg.userState cl.get_user_state))
    ∧ ((c.sync_client_and_channels net st).2).countP Event.isChannelStateMsg
        = st.channels.length
    ∧ ((c.sync_client_and_channels net st).2).countP Event.isUserStateMsg
        = st.clients.length
    ∧ ∃ A B, (c.sync_client_and_channels net st).2 = A ++ B
        ∧ (∀ e ∈ A, Event.isChannelStateMsg e = true)
        ∧ (∀ e ∈ B, Event.isUserStateMsg e = true) := by
  have htr : (c.sync_client_and_channels net st).2
      = (st.channels.map fun ch =>
          Event.tls (Msg.channelState ch.get_channel_state))
        ++ (st.clients.map fun cl =>
          Event.tls (Msg.userState cl.get_user_state)) := by
    simp [Client.sync_client_and_channels, sendAll_ok net h, List.map_map,
      Function.comp_def]
  refine ⟨htr, ?_, ?_, ?_⟩
  · rw [htr, List.countP_append]
    have h1 : (st.channels.map fun ch =>
        Event.tls (Msg.channelState ch.get_channel_state)).countP
          Event.isChannelStateMsg = st.channels.length := by
      rw [List.countP_map]
      exact List.countP_eq_length.mpr fun a _ => rfl
    have h2 : (st.clients.map fun cl =>
        Event.tls (Msg.userState cl.get_user_state)).countP
          Event.isChannelStateMsg = 0 := by
      rw [List.countP_map]
      exact List.countP_eq_zero.mpr fun a _ => by simp [Event.isChannelStateMsg]
    rw [h1, h2]; omega
  · rw [htr, List.countP_append]
    have h1 : (st.channels.map fun ch =>
        Event.tls (Msg.channelState ch.get_channel_state)).countP
          Event.isUserStateMsg = 0 := by
      rw [List.countP_map]
      exact List.countP_eq_zero.mpr fun a _ => by simp [Event.isUserStateMsg]
    have h2 : (st.clients.map fun cl =>
        Event.tls (Msg.userState cl.get_user_state)).countP
          Event.isUserStateMsg = st.clients.length := by
      rw [List.countP_map]
      exact List.countP_eq_length.mpr fun a _ => rfl
    rw [h1, h2]
    omega
  · refine ⟨_, _, htr, ?_, ?_⟩
    · intro e he
      rw [List.mem_map] at he
      obtain ⟨ch, -, rfl⟩ := he
      rfl
    · intro e he
      rw [List.mem_map] at he
      obtain ⟨cl, -, rfl⟩ := he
      rfl

/-- A concrete root channel. -/
def sampleChannel : Channel :=
  { state := { channel_id := some 0, name := some "Root", parent := some 0 } }

/-- A concrete server state with one channel and two clients. -/
def sampleState : ServerState :=
  { channels := [sampleChannel], clients := [sampleClient, sampleUdpClient] }

/-- C5 witness: on a one-channel, two-client state the sync trace is the
channel's `ChannelState` followed by the two `UserState`s. -/
theorem sync_client_and_channels_spec_witness :
    (sampleClient.sync_client_and_channels netOk sampleState).2
      = [Event.tls (Msg.channelState sampleChannel.get_channel_state),
         Event.tls (Msg.userState sampleClient.get_user_state),
         Event.tls (Msg.userState sampleUdpClient.get_user_state)] :=
  (sync_client_and_channels_spec netOk sampleClient sampleState
    (fun _ => rfl)).1

/-! ## C9 — target-vector capacity -/

/-- The client record produced by `Client::new` once the capacity parse
succeeded. -/
theorem client_new_eq (version : VersionMsg) (auth : Authenticate)
    (sid cid : Nat) (cs : CryptState) (env : Option String) (n : Nat)
    (hp : parseUsize (env.getD "2048") = some n) :
    Client.new version auth sid cid cs env
      = some
        { version := version
          session_id := sid
          channel_id := cid
          crypt_state := cs
          tokens := auth.tokens
          deaf := false
          mute := false
          udp_socket_addr := none
          use_opus := match auth.opus with
            | some b => b
            | none => false
          codecs := auth.celt_versions
          authenticate := auth
          targets := List.replicate n default } := by
  unfold Client.new
  rw [hp]

/-- C9: the voice-target vector of a freshly constructed client has length
given by the parsed `CLIENT_CAPACITY` environment variable — 2048 when it
is unset — and every slot is the default empty `VoiceTarget`. -/
theorem client_new_targets (version : VersionMsg) (auth : Authenticate)
    (sid cid : Nat) (cs : CryptState) (env : Option String) :
    (env = none → ∃ c, Client.new version auth sid cid cs env = some c
        ∧ c.targets.length = 2048
        ∧ ∀ t ∈ c.targets, t = VoiceTarget.empty)
    ∧ (∀ s n, env = some s → parseUsize s = some n →
        ∃ c, Client.new version auth sid cid cs env = some c
          ∧ c.targets.length = n
          ∧ ∀ t ∈ c.targets, t = VoiceTarget.empty) := by
  constructor
  · rintro rfl
    exact ⟨_, client_new_eq version auth sid cid cs none 2048 rfl,
      List.length_replicate _ _, fun t ht => List.eq_of_mem_replicate ht⟩
  · rintro s n rfl hp
    exact ⟨_, client_new_eq version auth sid cid cs (some s) n hp,
      List.length_replicate _ _, fun t ht => List.eq_of_mem_replicate ht⟩

/-- C9 witness: with `CLIENT_CAPACITY` unset the vector has 2048 empty
slots; with `CLIENT_CAPACITY=16` it has 16. -/
theorem client_new_targets_witness :
    (∃ c, Client.new {} sampleAuth 1 0 sampleCrypt none = some c
        ∧ c.targets.length = 2048
        ∧ ∀ t ∈ c.targets, t = VoiceTarget.empty)
    ∧ (∃ c, Client.new {} sampleAuth 1 0 sampleCrypt (some "16") = some c
        ∧ c.targets.length = 16
        ∧ ∀ t ∈ c.targets, t = VoiceTarget.empty) :=
  ⟨(client_new_targets {} sampleAuth 1 0 sampleCrypt none).1 rfl,
   (client_new_targets {} sampleAuth 1 0 sampleCrypt (some "16")).2
      "16" 16 rfl (by decide)⟩

/-! ## C2 — the handshake sequence -/

/-- The server version advertised by `main`: `1 << 16 | 2 << 8 | 4`. -/
def serverVersion124 : VersionMsg :=
  { version := some 66052
    release := some "1.0.0"
    os := some "unix"
    os_version := some "linux" }

/-- C2 (amended): `Client::init` receives `Version` within the 5-second
deadline, sends the server's `Version`, receives `Authenticate`, constructs
a fresh `CryptState` and sends its `CryptSetup`, returning the received
version, the received authenticate and the crypt state; a `Version` frame
arriving past the deadline fails the handshake with `Timeout`.  It performs
no comparison of the client's protocol version against a server minimum. -/
theorem init_sequence (net : Net) (fresh : CryptState) (sv : VersionMsg)
    (d₁ d₂ : Nat) (vm : VersionMsg) (am : Authenticate)
    (rest : List (Nat × Msg)) (h : ∀ m, net m = Except.ok ()) :
    (d₁ ≤ fiveSecondsMs → d₂ ≤ fiveSecondsMs →
      Client.init net fresh
          ((d₁, Msg.version vm) :: (d₂, Msg.authenticate am) :: rest) sv
        = (Except.ok (vm, am, fresh),
            [Event.tls (Msg.version sv),
             Event.tls (Msg.cryptSetup fresh.get_crypt_setup)]))
    ∧ (∀ delay m s, fiveSecondsMs < delay →
        (Client.init net fresh ((delay, m) :: s) sv).1
          = Except.error MumbleError.timeout) := by
  constructor
  · intro h1 h2
    have n1 : ¬ fiveSecondsMs < d₁ := Nat.not_lt.mpr h1
    have n2 : ¬ fiveSecondsMs < d₂ := Nat.not_lt.mpr h2
    simp [Client.init, expected_message, Msg.asVersion, Msg.asAuthenticate,
      n1, n2, h]
  · intro delay m s hd
    simp [Client.init, expected_message, hd]

/-- C2 witness: a timely `Version`/`Authenticate` exchange returns the
received messages and the fresh crypt state after sending the server's
version and the crypt setup; a `Version` frame arriving after 6 s fails
with `Timeout`. -/
theorem init_sequence_witness :
    Client.init netOk sampleCrypt
        [(0, Msg.version { version := some 66052 }),
         (10, Msg.authenticate sampleAuth)] serverVersion124
      = (Except.ok ({ version := some 66052 }, sampleAuth, sampleCrypt),
          [Event.tls (Msg.version serverVersion124),
           Event.tls (Msg.cryptSetup sampleCrypt.get_crypt_setup)])
    ∧ (Client.init netOk sampleCrypt
        [(6000, Msg.version { version := some 66052 })] serverVersion124).1
      = Except.error MumbleError.timeout :=
  ⟨(init_sequence netOk sampleCrypt serverVersion124 0 10
      { version := some 66052 } sampleAuth [] (fun _ => rfl)).1
      (by decide) (by decide),
   (init_sequence netOk sampleCrypt serverVersion124 0 10
      { version := some 66052 } sampleAuth [] (fun _ => rfl)).2
      6000 (Msg.version { version := some 66052 }) [] (by decide)⟩

/-- C2 counterexample: a client announcing protocol version 0 — below any
server minimum, in particular below the server's own 1.2.4 (66052) — is not
rejected: `init` completes successfully with that version. -/
theorem init_no_version_gate :
    0 < 66052
    ∧ (Client.init netOk sampleCrypt
        [(0, Msg.version { version := some 0 }),
         (0, Msg.authenticate sampleAuth)] serverVersion124).1
      = Except.ok ({ version := some 0 }, sampleAuth, sampleCrypt) :=
  ⟨by decide, rfl⟩

/-! ## C3 — process exit codes -/

/-- C3: contrary to the claim, a failed certificate load makes `main` log
and `return` — a normal return, exit code 0 — without serving; a failed
bind panics through `.unwrap()` (exit code 101); a graceful shutdown exits
0 after serving. -/
theorem main_exit_code_on_failures :
    mainResult
        { certLoad := .error ⟨2⟩, keyLoad := .ok [[0]], tlsConfig := .ok ()
          udpBind := .ok (), tcpBind := .ok (), serve := .ok () }
      = (0, false)
    ∧ mainResult
        { certLoad := .ok [[0]], keyLoad := .ok [[0]], tlsConfig := .ok ()
          udpBind := .error ⟨98⟩, tcpBind := .ok (), serve := .ok () }
      = (panicExitCode, false)
    ∧ mainResult
        { certLoad := .ok [[0]], keyLoad := .ok [[0]], tlsConfig := .ok ()
          udpBind := .ok (), tcpBind := .ok (), serve := .ok () }
      = (0, true) :=
  ⟨rfl, rfl, rfl⟩

end Zumble
